import Mathlib

/-!
Shallow embedding of the `desgaste-viga` repository (vibration analysis scripts).

The embedding covers:
* `src/DataImporter.py`: the path-convention helpers `atuador` and `desgaste`,
  the batch organizer `agrupar_por_desgaste`, and the resonance extraction
  `achar_ressonancias` (including the semantics of the `scipy.signal.find_peaks`
  call it makes, transcribed from scipy with the parameters used by the repo:
  `height`, `width`, `prominence`, `rel_height = 0.5`).
* `src/DataChecker/DataChecker.py`, `src/DataChecker/DataChecker_CLI.py` and
  `src/Tools/DataChecker.py`: the data-handler state (`dac`/`imu` channel
  configuration, lazily computed `fir` and `fir_freq` artifacts) and the
  methods `is_config`, `set_config`, `generate_fir`, `generate_fir_freq`.

Real-valued data is modelled with exact rationals (`ℚ`); the claims under
study are about algorithm structure (which peaks are selected, what is raised,
what is stored), not about floating-point rounding.  Paths are modelled as
strings with POSIX `os.path` semantics.  Python exceptions are modelled with
`Except PyErr`.  Unbounded `while` loops (inside the scipy transcription and
the exception-driven recursion of `generate_fir_freq`) are modelled with an
explicit fuel argument; the callers pass fuel that provably dominates the
loop bounds.
-/

namespace DesgasteViga

/-- Python exceptions relevant to the embedded code.  `pathError` carries the
offending path, mirroring `DataImporter.PathError.__init__`. -/
inductive PyErr where
  | pathError (path : String)
  | configError
  | typeError
  | axisError
  | indexError
deriving DecidableEq, Repr

instance {ε α : Type} [DecidableEq ε] [DecidableEq α] : DecidableEq (Except ε α)
  | .ok a, .ok b => if h : a = b then .isTrue (by rw [h]) else .isFalse (by simp [h])
  | .ok _, .error _ => .isFalse (by simp)
  | .error _, .ok _ => .isFalse (by simp)
  | .error e, .error f => if h : e = f then .isTrue (by rw [h]) else .isFalse (by simp [h])

/-! ## Python string and `os.path` helpers (POSIX semantics) -/

/-- Occurrence test `s[i:i+len(pat)] == pat` used by `str.find`/`str.rfind`. -/
def subAt (pat s : List Char) (i : Nat) : Bool :=
  decide ((s.drop i).take pat.length = pat)

/-- Python `s.find(pat)`: index of the first occurrence of `pat`, or `-1`. -/
def pyFind (pat s : List Char) : Int :=
  match (List.range (s.length + 1)).find? (fun i => subAt pat s i) with
  | some i => (i : Int)
  | none => -1

/-- Python `s.rfind(pat)`: index of the last occurrence of `pat`, or `-1`. -/
def pyRfind (pat s : List Char) : Int :=
  match ((List.range (s.length + 1)).filter (fun i => subAt pat s i)).getLast? with
  | some i => (i : Int)
  | none => -1

/-- Python slice `s[i:]`, handling negative start indices (`s[-1:]` is the
last character); a start below `-len(s)` clamps to the whole string. -/
def pySliceFrom (s : List Char) (i : Int) : List Char :=
  if 0 ≤ i then s.drop i.toNat else s.drop (s.length - (-i).toNat)

/-- Python `s.split(sep)` for a single-character separator: splits at every
occurrence, keeping empty pieces (`"a__b"` gives `["a", "", "b"]`). -/
def pySplit (sep : Char) (s : List Char) : List (List Char) :=
  s.foldr
    (fun c acc =>
      if c = sep then [] :: acc
      else
        match acc with
        | [] => [[c]]
        | t :: ts => (c :: t) :: ts)
    [[]]

/-- Python `os.path.basename` (POSIX): everything after the last `/`. -/
def pyBasename (s : List Char) : List Char :=
  s.drop (pyRfind ['/'] s + 1).toNat

/-- Python `os.path.dirname` (POSIX): `head = s[: s.rfind('/') + 1]`, then
trailing slashes are stripped unless `head` is empty or consists only of
slashes.  The guard `head and head != '/' * len(head)` is expressed as
`head.any (fun c => c != '/')`. -/
def pyDirname (s : List Char) : List Char :=
  let head := s.take (pyRfind ['/'] s + 1).toNat
  if head.any (fun c => c != '/') then
    (head.reverse.dropWhile (fun c => c = '/')).reverse
  else head

/-- Value of `int(c)` for a single character: the digit value when `c` is a
decimal digit, otherwise a `ValueError` (represented by `none`). -/
def pyDigit (c : Char) : Option Nat :=
  if c.isDigit then some (c.toNat - 48) else none

/-! ## `DataImporter.py`: path-convention helpers -/

/-- Embedding of `DataImporter.atuador` (lines 20-40): actuator index of a
sample, `int(os.path.basename(path).split("_")[1][1])`; an `IndexError` or
`ValueError` is converted into `PathError path`. -/
def atuador (path : String) : Except PyErr Nat :=
  let file_name := pyBasename path.data
  match (pySplit '_' file_name).get? 1 with
  | none => .error (.pathError path)
  | some tok =>
    match tok.get? 1 with
    | none => .error (.pathError path)
    | some c =>
      match pyDigit c with
      | some d => .ok d
      | none => .error (.pathError path)

/-- Embedding of `DataImporter.desgaste` (lines 43-64): wear level of a
sample.  `dir = dir_path[dir_path.rfind('Viga'):]` (note that a missing
`'Viga'` yields `-1`, so `dir` degenerates to the last character of
`dir_path`); the result is `0` when `dir.find('Intacta') > 0`, otherwise
`int(dir[-1])`; an `IndexError` or `ValueError` becomes `PathError path`. -/
def desgaste (path : String) : Except PyErr Nat :=
  let dir_path := pyDirname path.data
  let dir := pySliceFrom dir_path (pyRfind "Viga".data dir_path)
  if pyFind "Intacta".data dir > 0 then .ok 0
  else
    match dir.getLast? with
    | none => .error (.pathError path)
    | some c =>
      match pyDigit c with
      | some d => .ok d
      | none => .error (.pathError path)

/-! ## `DataImporter.py`: batch organizer -/

/-- One update of `sorted_paths[d]` in `agrupar_por_desgaste`:
`if sorted_paths[d][0] is None: sorted_paths[d][0] = path
else: sorted_paths[d].append(path)`.  Indexing `[0]` on an empty list would
be an `IndexError` (entries always start as `[None]`, so this branch is
unreachable from `agrupar_por_desgaste`). -/
def updateEntry (entry : List (Option String)) (p : String) :
    Except PyErr (List (Option String)) :=
  match entry with
  | [] => .error .indexError
  | none :: rest => .ok (some p :: rest)
  | some q :: rest => .ok (some q :: (rest ++ [some p]))

/-- Loop body of `agrupar_por_desgaste` (lines 173-179): for each path,
compute `d = desgaste(path)` (propagating `PathError`) and update
`sorted_paths[d]`; an index `d` outside the list is an `IndexError`
(uncaught in the source). -/
def agruparGo (acc : List (List (Option String))) :
    List String → Except PyErr (List (List (Option String)))
  | [] => .ok acc
  | p :: ps =>
    match desgaste p with
    | .error e => .error e
    | .ok d =>
      if hd : d < acc.length then
        match updateEntry (acc.get ⟨d, hd⟩) p with
        | .error e => .error e
        | .ok entry => agruparGo (acc.set d entry) ps
      else .error .indexError

/-- Embedding of `DataImporter.agrupar_por_desgaste` (lines 156-181):
`sorted_paths` starts as `niveis_desgaste` copies of `[None]` and is filled
path by path. -/
def agrupar_por_desgaste (feather_paths : List String) (niveis_desgaste : Nat) :
    Except PyErr (List (List (Option String))) :=
  agruparGo (List.replicate niveis_desgaste [none]) feather_paths

/-- Shape of one wear-level entry of the result of `agrupar_por_desgaste`
holding exactly the samples `l`: the sentinel `[None]` when no sample has
that level, otherwise the samples themselves (the first one having replaced
the sentinel). -/
def entryRepr (l : List String) : List (Option String) :=
  match l with
  | [] => [none]
  | _ :: _ => l.map some

/-! ## `scipy.signal.find_peaks` with the arguments used by the repository

`achar_ressonancias` calls
`find_peaks(fir_freq[0], height=altura, width=distancia, prominence=proeminencia)`.
The definitions below transcribe the scipy implementation for exactly this
argument set: `_local_maxima_1d`, the non-strict height selection,
`_peak_prominences` (with no `wlen` window), and `_peak_widths` at the
default `rel_height = 0.5`.  `distance` and `threshold` are `None` in the
call, so those stages are omitted, as scipy omits them.  Loops whose index
moves upward carry explicit fuel; the callers pass fuel exceeding the loop
bound (`x.length` iterations at most). -/

/-- Value `x[i]` of a spectrum; indices produced by the scan are in range,
out-of-range access defaults to `0`. -/
def xval (x : List ℚ) (i : Nat) : ℚ := x.getD i 0

/-- Mean of a sequence, `np.mean` (the empty case is never reached with a
qualifying peak: an empty spectrum has no peaks). -/
def pyMean (l : List ℚ) : ℚ := l.sum / l.length

/-- Inner plateau scan of `_local_maxima_1d`:
`i_ahead = i + 1; while i_ahead < n - 1 and x[i_ahead] == x[i]: i_ahead += 1`. -/
def plateauGo (x : List ℚ) (v : ℚ) : Nat → Nat → Nat
  | 0, i => i
  | f + 1, i => if i < x.length - 1 ∧ xval x i = v then plateauGo x v f (i + 1) else i

/-- Main scan of `_local_maxima_1d`: starting at `i = 1`, while `i < n - 1`,
a strict rise `x[i-1] < x[i]` followed by a plateau ending in a strict fall
stores the plateau midpoint `(left_edge + right_edge) // 2` and resumes at
`i_ahead + 1`; otherwise `i` advances by one. -/
def lmGo (x : List ℚ) : Nat → Nat → List Nat
  | 0, _ => []
  | f + 1, i =>
    if i < x.length - 1 then
      if xval x (i - 1) < xval x i then
        let ia := plateauGo x (xval x i) x.length (i + 1)
        if xval x ia < xval x i then
          ((i + (ia - 1)) / 2) :: lmGo x f (ia + 1)
        else lmGo x f (i + 1)
      else lmGo x f (i + 1)
    else []

/-- scipy `_local_maxima_1d`: indices of the interior local maxima
(plateau midpoints), in increasing order. -/
def localMaxima (x : List ℚ) : List Nat := lmGo x x.length 1

/-- Left half of `_peak_prominences` for one peak: starting at `i = peak`,
while `0 ≤ i` and `x[i] <= x[peak]`, a strictly smaller value updates
`left_min` and `left_base`; returns `(left_min, left_base)`. -/
def promLeftGo (x : List ℚ) (xp : ℚ) : Nat → ℚ → Nat → ℚ × Nat
  | i, lmin, base =>
    if xval x i ≤ xp then
      let lmin2 := if xval x i < lmin then xval x i else lmin
      let base2 := if xval x i < lmin then i else base
      match i with
      | 0 => (lmin2, base2)
      | j + 1 => promLeftGo x xp j lmin2 base2
    else (lmin, base)

/-- Right half of `_peak_prominences` for one peak: starting at `i = peak`,
while `i <= n - 1` and `x[i] <= x[peak]`, a strictly smaller value updates
`right_min` and `right_base`. -/
def promRightGo (x : List ℚ) (xp : ℚ) : Nat → Nat → ℚ → Nat → ℚ × Nat
  | 0, _, rmin, base => (rmin, base)
  | f + 1, i, rmin, base =>
    if i < x.length ∧ xval x i ≤ xp then
      let rmin2 := if xval x i < rmin then xval x i else rmin
      let base2 := if xval x i < rmin then i else base
      promRightGo x xp f (i + 1) rmin2 base2
    else (rmin, base)

/-- scipy `_peak_prominences` (no `wlen`): the prominence
`x[peak] - max(left_min, right_min)` together with the left and right bases. -/
def promData (x : List ℚ) (p : Nat) : ℚ × Nat × Nat :=
  let xp := xval x p
  let left := promLeftGo x xp p xp p
  let right := promRightGo x xp (x.length + 1) p xp p
  (xp - max left.1 right.1, left.2, right.2)

/-- Left intersection scan of `_peak_widths`:
`i = peak; while left_base < i and height < x[i]: i -= 1`. -/
def widthLeftGo (x : List ℚ) (hv : ℚ) (lb : Nat) : Nat → Nat
  | 0 => 0
  | i + 1 => if lb < i + 1 ∧ hv < xval x (i + 1) then widthLeftGo x hv lb i else i + 1

/-- Right intersection scan of `_peak_widths`:
`i = peak; while i < right_base and height < x[i]: i += 1`. -/
def widthRightGo (x : List ℚ) (hv : ℚ) (rb : Nat) : Nat → Nat → Nat
  | 0, i => i
  | f + 1, i => if i < rb ∧ hv < xval x i then widthRightGo x hv rb f (i + 1) else i

/-- scipy `_peak_widths` for one peak at the default `rel_height = 0.5`:
the evaluation height is `x[peak] - prominence * 0.5`; on each side the scan
stops at the last sample above that height and the crossing position is
linearly interpolated; the width is the distance between the two crossings. -/
def widthOf (x : List ℚ) (p : Nat) : ℚ :=
  let pd := promData x p
  let hv := xval x p - pd.1 / 2
  let li := widthLeftGo x hv pd.2.1 p
  let lip : ℚ :=
    if xval x li < hv then (li : ℚ) + (hv - xval x li) / (xval x (li + 1) - xval x li)
    else (li : ℚ)
  let ri := widthRightGo x hv pd.2.2 (x.length + 1) p
  let rip : ℚ :=
    if xval x ri < hv then (ri : ℚ) - (hv - xval x ri) / (xval x (ri - 1) - xval x ri)
    else (ri : ℚ)
  rip - lip

/-- scipy `find_peaks(x, height=hmin, width=wmin, prominence=pmin)[0]`:
local maxima filtered, in scipy's order, by height (`hmin <= x[peak]`), then
prominence (`pmin <= prominence`), then width (`wmin <= width`); all three
selections are non-strict. -/
def findPeaks (x : List ℚ) (hmin wmin pmin : ℚ) : List Nat :=
  let peaks := localMaxima x
  let peaks1 := peaks.filter (fun i => decide (hmin ≤ xval x i))
  let peaks2 := peaks1.filter (fun i => decide (pmin ≤ (promData x i).1))
  peaks2.filter (fun i => decide (wmin ≤ widthOf x i))

/-- Height threshold of `achar_ressonancias` (line 121):
`altura = np.mean(fir_freq[0]) + abs(np.mean(fir_freq[0]) * altura_rel)`. -/
def altura (mag : List ℚ) (altura_rel : ℚ) : ℚ :=
  pyMean mag + |pyMean mag * altura_rel|

/-- Embedding of `DataImporter.achar_ressonancias` (lines 118-126), given the
already-computed frequency response `fir_freq` (a magnitude row and a
frequency row; the file-loading and FIR front end of lines 118-119 produces
this pair and is abstracted into the argument).  The `np.split(np_data, 2, 1)`
step fails with an `AxisError` when no peak qualifies, because
`np.array([])` is one-dimensional and has no axis 1; with at least one peak
it splits the columns into the amplitude and the frequency of each peak. -/
def achar_ressonancias (fir_freq : List ℚ × List ℚ)
    (altura_rel distancia proeminencia : ℚ) :
    Except PyErr (List ℚ × List ℚ) :=
  let mag := fir_freq.1
  let picos := findPeaks mag (altura mag altura_rel) distancia proeminencia
  match picos with
  | [] => .error .axisError
  | _ :: _ =>
    .ok (picos.map (fun i => xval mag i), picos.map (fun i => xval fir_freq.2 i))

/-- Comparison definition following the words of the specification for claim
C3 (section 4.4: actuator index obtained by parsing the FIRST character of
the second underscore-delimited token as a digit); the source parses the
SECOND character (`[1][1]`), so the two definitions are compared. -/
def atuadorSpecFirstChar (path : String) : Except PyErr Nat :=
  let file_name := pyBasename path.data
  match (pySplit '_' file_name).get? 1 with
  | none => .error (.pathError path)
  | some tok =>
    match tok.get? 0 with
    | none => .error (.pathError path)
    | some c =>
      match pyDigit c with
      | some d => .ok d
      | none => .error (.pathError path)

/-! ## Data handlers (`Tools/DataChecker.py`, `DataChecker/DataChecker.py`,
`DataChecker/DataChecker_CLI.py`)

The three scripts define the same handler state; they differ only in
`generate_fir` (the `Tools` variant raises when unconfigured, the two
`DataHolder` variants silently do nothing).  The FIR estimator
`ActVibModules.Adaptive.FIRNLMS` and the spectral transform
`ActVibModules.DSPFuncs.easyFourier` are external library code (not part of
this repository), so the handler operations are parameterized over the two
computations `R` (the `FIRNLMS(memorysize=2000).run` result on the two
mean-centered channels) and `F` (`easyFourier` at a sampling rate): the
claims about the handlers hold for every instantiation. -/

/-- Handler state: the columnar sample data (`self.data`, column lookup by
channel name), the configured channel names `dac`/`imu` (`None` when unset),
and the lazily computed attributes `fir` and `fir_freq` (`none` models the
attribute not existing yet, the state in which reading it raises
`AttributeError`). -/
structure DataHolder where
  name : String
  data : String → List ℚ
  dac : Option String
  imu : Option String
  fir : Option (List ℚ)
  fir_freq : Option (List ℚ × List ℚ)

/-- Mean-centering `self.data[col].values - self.data[col].mean()` applied to
both channels before running the filter. -/
def meanCenter (l : List ℚ) : List ℚ := l.map (fun v => v - pyMean l)

/-- Embedding of `is_config` (all variants):
`False if None in [self.dac, self.imu] else True`. -/
def DataHolder.is_config (h : DataHolder) : Bool :=
  h.dac.isSome && h.imu.isSome

/-- Embedding of `set_config` (all variants): each argument that is not
`None` overwrites the corresponding field; a `None` argument leaves the
field unchanged. -/
def set_config (h : DataHolder) (dac imu : Option String) : DataHolder :=
  let h1 := if dac.isSome then { h with dac := dac } else h
  if imu.isSome then { h1 with imu := imu } else h1

/-- Embedding of `DataHolder.generate_fir` from `DataChecker/DataChecker.py`
and `DataChecker/DataChecker_CLI.py`: when configured, store the FIR
estimate of the two mean-centered channels in `fir`; when not configured,
the method body is only the guarded `if` — it returns silently without
touching `fir`. -/
def generate_fir (R : List ℚ → List ℚ → List ℚ) (h : DataHolder) : DataHolder :=
  if h.is_config then
    { h with
      fir := some (R (meanCenter (h.data (h.dac.getD "")))
                     (meanCenter (h.data (h.imu.getD "")))) }
  else h

/-- Embedding of `DataHandler.generate_fir` from `Tools/DataChecker.py`: the
unconfigured branch executes `raise ConfigError`.  Python instantiates the
raised class with no arguments, but `ConfigError.__init__(self, path)`
requires a `path` argument, so the instantiation itself fails and the
statement raises `TypeError`, not `ConfigError`. -/
def generate_fir_tools (R : List ℚ → List ℚ → List ℚ) (h : DataHolder) :
    Except PyErr DataHolder :=
  if h.is_config then
    .ok { h with
          fir := some (R (meanCenter (h.data (h.dac.getD "")))
                         (meanCenter (h.data (h.imu.getD "")))) }
  else .error .typeError

/-- Embedding of `generate_fir_freq` (`DataHolder` variants):
`try: self.fir_freq = easyFourier(self.fir.ww, fs=416)`; when `fir` does not
exist the `AttributeError` handler calls `generate_fir()` and retries by
calling `generate_fir_freq()` again.  The recursion is modelled with fuel;
`none` means the recursion did not terminate within the given fuel. -/
def generate_fir_freq (R : List ℚ → List ℚ → List ℚ)
    (F : List ℚ → ℚ → List ℚ × List ℚ) : Nat → DataHolder → Option DataHolder
  | 0, _ => none
  | fuel + 1, h =>
    match h.fir with
    | some w => some { h with fir_freq := some (F w 416) }
    | none => generate_fir_freq R F fuel (generate_fir R h)

/-! ## Concrete sample data used by the counterexamples and witnesses -/

/-- Magnitude spectrum with two qualifying peaks two indices apart: a gentle
rise to a peak of height 16 at index 6, a deep notch, and a sharp peak of
height 20 at index 8. -/
def twoPeakMag : List ℚ := [6, 8, 10, 12, 14, 15, 16, 0, 20, 10, 6, 0]

/-- Frequency row paired with `twoPeakMag` (the index itself, for
readability). -/
def twoPeakFreq : List ℚ := [0, 1, 2, 3, 4, 5, 6, 7, 8, 9, 10, 11]

/-- Magnitude spectrum whose single peak (value 9 at index 1) sits exactly
at the height threshold computed for `altura_rel = -1/2` (mean 6, threshold
`6 + |6 * (-1/2)| = 9`). -/
def eqPeakMag : List ℚ := [0, 9, 0, 15]

/-- Frequency row paired with `eqPeakMag`. -/
def eqPeakFreq : List ℚ := [10, 20, 30, 40]

/-- A handler whose response channel is not configured (fresh object, no
computed attributes). -/
def unconfHolder : DataHolder :=
  { name := "a.feather", data := fun _ => [], dac := some "dac1", imu := none,
    fir := none, fir_freq := none }

/-- A fully configured fresh handler. -/
def confHolder : DataHolder :=
  { name := "b.feather", data := fun _ => [1, 2, 1], dac := some "dac1",
    imu := some "imu2accz", fir := none, fir_freq := none }

/-- A trivial stand-in for the external FIR computation, used to instantiate
the parameterized handler theorems at a concrete input. -/
def idRun : List ℚ → List ℚ → List ℚ := fun x _ => x

/-- A trivial stand-in for the external `easyFourier`, used to instantiate
the parameterized handler theorems at a concrete input. -/
def idFourier : List ℚ → ℚ → List ℚ × List ℚ := fun w _ => (w, w)

end DesgasteViga

namespace DesgasteViga

/-! ## Helper lemmas -/

/-- Unfolding of one iteration of the `_local_maxima_1d` scan in a shape with
a single recursive occurrence (the stored-head/next-index pair is computed
first); used to evaluate `lmGo` on concrete spectra. -/
theorem lmGo_succ (x : List ℚ) (f i : Nat) :
    lmGo x (f + 1) i =
      if i < x.length - 1 then
        (if xval x (i - 1) < xval x i then
          (if xval x (plateauGo x (xval x i) x.length (i + 1)) < xval x i then
            ([(i + (plateauGo x (xval x i) x.length (i + 1) - 1)) / 2],
              plateauGo x (xval x i) x.length (i + 1) + 1)
          else ([], i + 1))
        else ([], i + 1)).1 ++
        lmGo x f
          ((if xval x (i - 1) < xval x i then
            (if xval x (plateauGo x (xval x i) x.length (i + 1)) < xval x i then
              ([(i + (plateauGo x (xval x i) x.length (i + 1) - 1)) / 2],
                plateauGo x (xval x i) x.length (i + 1) + 1)
            else ([], i + 1))
          else ([], i + 1)).2)
      else [] := by
  rw [lmGo]
  split_ifs <;> simp_all

/-- Value lookup in a constant spectrum. -/
theorem xval_replicate (n : Nat) (c : ℚ) (i : Nat) :
    xval (List.replicate n c) i = if i < n then c else 0 := by
  by_cases h : i < n <;>
    simp [xval, h, List.getD_eq_getElem?_getD, List.getElem?_replicate]

/-- The local-maxima scan finds nothing in a constant spectrum: the strict
rise `x[i-1] < x[i]` never holds. -/
theorem lmGo_replicate (n : Nat) (c : ℚ) (f : Nat) :
    ∀ i, lmGo (List.replicate n c) f i = [] := by
  induction f with
  | zero => intro i; rfl
  | succ f ih =>
    intro i
    rw [lmGo]
    by_cases h : i < (List.replicate n c).length - 1
    · rw [if_pos h]
      have hi : i < n := by simpa using Nat.lt_of_lt_of_le h (Nat.sub_le _ _)
      have hlt : ¬ xval (List.replicate n c) (i - 1) < xval (List.replicate n c) i := by
        rw [xval_replicate, xval_replicate, if_pos hi, if_pos (by omega)]
        exact lt_irrefl c
      rw [if_neg hlt]
      exact ih (i + 1)
    · rw [if_neg h]

/-- Every index returned by `findPeaks` passed the (non-strict) height
selection. -/
theorem height_le_of_mem_findPeaks {x : List ℚ} {hmin wmin pmin : ℚ} {i : Nat}
    (h : i ∈ findPeaks x hmin wmin pmin) : hmin ≤ xval x i := by
  unfold findPeaks at h
  have h1 := List.mem_of_mem_filter h
  have h2 := List.mem_of_mem_filter h1
  exact of_decide_eq_true (List.mem_filter.mp h2).2

/-- Updating an entry holding exactly the samples `l` appends the new sample
(the first sample replaces the sentinel). -/
theorem updateEntry_entryRepr (l : List String) (p : String) :
    updateEntry (entryRepr l) p = .ok (entryRepr (l ++ [p])) := by
  cases l with
  | nil => rfl
  | cons q l' => simp [entryRepr, updateEntry]

/-- The organizer loop processes a concatenation by processing the first part
and, on success, continuing with the second. -/
theorem agruparGo_append (l1 l2 : List String) :
    ∀ acc, agruparGo acc (l1 ++ l2) =
      match agruparGo acc l1 with
      | .ok acc2 => agruparGo acc2 l2
      | .error e => .error e := by
  induction l1 with
  | nil => intro acc; rfl
  | cons p ps ih =>
    intro acc
    rw [List.cons_append, agruparGo, agruparGo]
    cases desgaste p with
    | error e => rfl
    | ok d =>
      dsimp only
      by_cases hd : d < acc.length
      · rw [dif_pos hd, dif_pos hd]
        cases updateEntry (acc.get ⟨d, hd⟩) p with
        | error e => rfl
        | ok entry => exact ih _
      · rw [dif_neg hd, dif_neg hd]

/-- Invariant of the organizer loop: if every remaining path parses to a
wear level within range and every accumulator entry holds exactly the
already-grouped samples of its level, the loop succeeds and each final entry
holds exactly the old samples followed by the new paths of its level, in
input order. -/
theorem agruparGo_ok (paths : List String) :
    ∀ (acc : List (List (Option String))) (g : Nat → List String),
    (∀ p ∈ paths, ∃ d, desgaste p = .ok d ∧ d < acc.length) →
    (∀ d, d < acc.length → acc.getD d [] = entryRepr (g d)) →
    ∃ res, agruparGo acc paths = .ok res ∧ res.length = acc.length ∧
      ∀ d, d < acc.length → res.getD d [] =
        entryRepr (g d ++ paths.filter (fun p => decide (desgaste p = .ok d))) := by
  induction paths with
  | nil =>
    intro acc g _ hacc
    exact ⟨acc, rfl, rfl, by simpa using hacc⟩
  | cons p ps ih =>
    intro acc g hp hacc
    obtain ⟨d0, hok, hlt⟩ := hp p (List.mem_cons_self _ _)
    have hget : acc.get ⟨d0, hlt⟩ = entryRepr (g d0) := by
      have := hacc d0 hlt
      rw [List.getD_eq_getElem?_getD, List.getElem?_eq_getElem hlt, Option.getD_some] at this
      simpa [List.get_eq_getElem] using this
    have hstep : agruparGo acc (p :: ps) =
        agruparGo (acc.set d0 (entryRepr (g d0 ++ [p]))) ps := by
      rw [agruparGo, hok]
      dsimp only
      rw [dif_pos hlt, hget, updateEntry_entryRepr]
    obtain ⟨res, hrun, hlen, hres⟩ :=
      ih (acc.set d0 (entryRepr (g d0 ++ [p])))
        (fun d => if d0 = d then g d0 ++ [p] else g d)
        (by
          intro q hq
          obtain ⟨d, hdok, hdlt⟩ := hp q (List.mem_cons_of_mem _ hq)
          exact ⟨d, hdok, by simpa using hdlt⟩)
        (by
          intro d hd
          have hd' : d < acc.length := by simpa using hd
          dsimp only
          rw [List.getD_eq_getElem?_getD, List.getElem?_eq_getElem hd, Option.getD_some,
            List.getElem_set]
          by_cases hdd : d0 = d
          · rw [if_pos hdd, if_pos hdd]
          · rw [if_neg hdd, if_neg hdd]
            have := hacc d hd'
            rwa [List.getD_eq_getElem?_getD, List.getElem?_eq_getElem hd', Option.getD_some]
              at this)
    refine ⟨res, by rw [hstep, hrun], by simpa using hlen, ?_⟩
    intro d hd
    have h1 := hres d (by simpa using hd)
    rw [h1, List.filter_cons]
    by_cases hdd : d0 = d
    · subst hdd
      rw [if_pos rfl, if_pos (by rw [hok]; simp)]
      simp
    · rw [if_neg hdd, if_neg (by rw [hok]; simpa using hdd)]

/-- One `set_config` call cannot unset a configured handler. -/
theorem is_config_set_config (h : DataHolder) (d i : Option String)
    (hc : h.is_config = true) : (set_config h d i).is_config = true := by
  cases d <;> cases i <;> simp_all [set_config, DataHolder.is_config]

/-- Any sequence of `set_config` calls keeps a configured handler
configured. -/
theorem is_config_foldl (calls : List (Option String × Option String)) :
    ∀ h : DataHolder, h.is_config = true →
      (calls.foldl (fun s c => set_config s c.1 c.2) h).is_config = true := by
  induction calls with
  | nil => intro h hc; exact hc
  | cons c cs ih => intro h hc; exact ih _ (is_config_set_config h c.1 c.2 hc)

end DesgasteViga

namespace DesgasteViga

/-! ## Evaluation of the pipeline on the concrete spectra -/

theorem alt_twoPeak : altura twoPeakMag 0 = 39 / 4 := by
  rw [altura, pyMean]; norm_num [twoPeakMag]

theorem xv_twoPeak6 : xval twoPeakMag 6 = 16 := by simp [xval, twoPeakMag]

theorem xv_twoPeak8 : xval twoPeakMag 8 = 20 := by simp [xval, twoPeakMag]

theorem xvf_twoPeak6 : xval twoPeakFreq 6 = 6 := by simp [xval, twoPeakFreq]

set_option maxHeartbeats 1000000 in
theorem lm_twoPeak : localMaxima twoPeakMag = [6, 8] := by
  norm_num only [localMaxima, lmGo_succ, plateauGo, xval, List.getD, twoPeakMag,
    List.length, List.get?, Option.getD, List.cons_append, List.nil_append, ite_true,
    ite_false, true_and, and_true, false_and, and_false, not_true, not_false_iff]

set_option maxHeartbeats 1000000 in
theorem prom_twoPeak6 : promData twoPeakMag 6 = (10, 0, 7) := by
  norm_num only [promData, promLeftGo, promRightGo, xval, List.getD, twoPeakMag,
    List.length, List.get?, Option.getD, ite_true, ite_false, true_and, and_true,
    false_and, and_false, not_true, not_false_iff, max_self]
  norm_num [max_def]

set_option maxHeartbeats 1000000 in
theorem prom_twoPeak8 : promData twoPeakMag 8 = (20, 7, 11) := by
  norm_num only [promData, promLeftGo, promRightGo, xval, List.getD, twoPeakMag,
    List.length, List.get?, Option.getD, ite_true, ite_false, true_and, and_true,
    false_and, and_false, not_true, not_false_iff, max_self]

set_option maxHeartbeats 1000000 in
theorem width_twoPeak6 : widthOf twoPeakMag 6 = 61 / 16 := by
  rw [widthOf, prom_twoPeak6]
  norm_num only [widthLeftGo, widthRightGo, xval, List.getD, twoPeakMag, List.length,
    List.get?, Option.getD, ite_true, ite_false, true_and, and_true, false_and, and_false,
    not_true, not_false_iff]

set_option maxHeartbeats 1000000 in
theorem width_twoPeak8 : widthOf twoPeakMag 8 = 3 / 2 := by
  rw [widthOf, prom_twoPeak8]
  norm_num only [widthLeftGo, widthRightGo, xval, List.getD, twoPeakMag, List.length,
    List.get?, Option.getD, ite_true, ite_false, true_and, and_true, false_and, and_false,
    not_true, not_false_iff]

set_option maxHeartbeats 1000000 in
theorem fp_twoPeak : findPeaks twoPeakMag (39 / 4) 3 2 = [6] := by
  rw [findPeaks, lm_twoPeak]
  norm_num only [List.filter_cons, List.filter_nil, xv_twoPeak6, xv_twoPeak8,
    prom_twoPeak6, prom_twoPeak8, width_twoPeak6, width_twoPeak8, decide_eq_true_eq,
    ite_true, ite_false]

set_option maxHeartbeats 1000000 in
theorem achar_twoPeak :
    achar_ressonancias (twoPeakMag, twoPeakFreq) 0 3 2 = .ok ([16], [6]) := by
  rw [achar_ressonancias]
  norm_num only [alt_twoPeak, fp_twoPeak, List.map_cons, List.map_nil, xv_twoPeak6,
    xvf_twoPeak6]

theorem alt_eqPeak_neg : altura eqPeakMag (-(1 / 2)) = 9 := by
  rw [altura, pyMean]
  norm_num [eqPeakMag, abs_of_nonpos]

theorem alt_eqPeak_zero : altura eqPeakMag 0 = 6 := by
  rw [altura, pyMean]; norm_num [eqPeakMag]

theorem xv_eqPeak1 : xval eqPeakMag 1 = 9 := by simp [xval, eqPeakMag]

theorem xvf_eqPeak1 : xval eqPeakFreq 1 = 20 := by simp [xval, eqPeakFreq]

theorem lm_eqPeak : localMaxima eqPeakMag = [1] := by
  norm_num only [localMaxima, lmGo_succ, plateauGo, xval, List.getD, eqPeakMag,
    List.length, List.get?, Option.getD, List.cons_append, List.nil_append, ite_true,
    ite_false, true_and, and_true, false_and, and_false, not_true, not_false_iff]

theorem prom_eqPeak : promData eqPeakMag 1 = (9, 0, 2) := by
  norm_num only [promData, promLeftGo, promRightGo, xval, List.getD, eqPeakMag,
    List.length, List.get?, Option.getD, ite_true, ite_false, true_and, and_true,
    false_and, and_false, not_true, not_false_iff, max_self]

theorem width_eqPeak : widthOf eqPeakMag 1 = 1 := by
  rw [widthOf, prom_eqPeak]
  norm_num only [widthLeftGo, widthRightGo, xval, List.getD, eqPeakMag, List.length,
    List.get?, Option.getD, ite_true, ite_false, true_and, and_true, false_and, and_false,
    not_true, not_false_iff]

theorem fp_eqPeak9 : findPeaks eqPeakMag 9 0 0 = [1] := by
  rw [findPeaks, lm_eqPeak]
  norm_num only [List.filter_cons, List.filter_nil, xv_eqPeak1, prom_eqPeak, width_eqPeak,
    decide_eq_true_eq, ite_true, ite_false]

theorem fp_eqPeak6 : findPeaks eqPeakMag 6 0 0 = [1] := by
  rw [findPeaks, lm_eqPeak]
  norm_num only [List.filter_cons, List.filter_nil, xv_eqPeak1, prom_eqPeak, width_eqPeak,
    decide_eq_true_eq, ite_true, ite_false]

theorem achar_eqPeak_neg :
    achar_ressonancias (eqPeakMag, eqPeakFreq) (-(1 / 2)) 0 0 = .ok ([9], [20]) := by
  rw [achar_ressonancias]
  norm_num only [alt_eqPeak_neg, fp_eqPeak9, List.map_cons, List.map_nil, xv_eqPeak1,
    xvf_eqPeak1]

theorem achar_eqPeak_zero :
    achar_ressonancias (eqPeakMag, eqPeakFreq) 0 0 0 = .ok ([9], [20]) := by
  rw [achar_ressonancias]
  norm_num only [alt_eqPeak_zero, fp_eqPeak6, List.map_cons, List.map_nil, xv_eqPeak1,
    xvf_eqPeak1]

end DesgasteViga

namespace DesgasteViga

/-! ## More helper lemmas for the claims -/

/-- Python slice `s[-1:]` keeps only the last character. -/
theorem pySliceFrom_neg_one (s : List Char) :
    pySliceFrom s (-1) = s.drop (s.length - 1) := by
  rw [pySliceFrom, if_neg (by norm_num)]
  norm_num

/-- Searching for a pattern longer than the text always fails. -/
theorem pyFind_of_short (pat s : List Char) (h : s.length < pat.length) :
    pyFind pat s = -1 := by
  rw [pyFind]
  have hnone : (List.range (s.length + 1)).find? (fun i => subAt pat s i) = none := by
    rw [List.find?_eq_none]
    intro i _
    simp only [subAt, decide_eq_true_eq]
    intro hEq
    have hlen : pat.length = ((s.drop i).take pat.length).length := by rw [hEq]
    rw [List.length_take, List.length_drop] at hlen
    omega
  rw [hnone]

/-- Dropping all but the last element preserves the last element. -/
theorem getLast?_drop_sub_one (s : List Char) :
    (s.drop (s.length - 1)).getLast? = s.getLast? := by
  induction s using List.reverseRecOn with
  | nil => rfl
  | append_singleton l a ih =>
    have h1 : (l ++ [a]).length - 1 = l.length := by simp
    rw [h1, List.drop_left, List.getLast?_concat]
    rfl

/-- Shape of `achar_ressonancias` when at least one peak qualifies. -/
theorem achar_eq_of_findPeaks_cons {mag freq : List ℚ} {r wmin pmin : ℚ} {pk : Nat}
    {pks : List Nat} (hpk : findPeaks mag (altura mag r) wmin pmin = pk :: pks) :
    achar_ressonancias (mag, freq) r wmin pmin =
      .ok ((pk :: pks).map (fun i => xval mag i), (pk :: pks).map (fun i => xval freq i)) := by
  simp only [achar_ressonancias]
  rw [hpk]

/-- Shape of `achar_ressonancias` when no peak qualifies. -/
theorem achar_eq_of_findPeaks_nil {mag freq : List ℚ} {r wmin pmin : ℚ}
    (hpk : findPeaks mag (altura mag r) wmin pmin = []) :
    achar_ressonancias (mag, freq) r wmin pmin = .error .axisError := by
  simp only [achar_ressonancias]
  rw [hpk]

/-! ## Claims -/

/-- Claim C1 (code_bug evidence): on a handler whose `imu` channel is unset,
the `DataHolder` variant of `generate_fir` returns silently and leaves `fir`
absent, for every FIR computation `R`; the `Tools/DataChecker.py` variant
does raise, but its bare `raise ConfigError` cannot construct `ConfigError`
(whose `__init__` demands a `path` argument) and so raises `TypeError`
instead of the configuration error. -/
theorem C1_generate_fir_unconfigured (R : List ℚ → List ℚ → List ℚ) :
    generate_fir R unconfHolder = unconfHolder ∧
    unconfHolder.fir = none ∧
    generate_fir_tools R unconfHolder = .error .typeError ∧
    PyErr.typeError ≠ PyErr.configError :=
  ⟨rfl, rfl, rfl, by decide⟩

/-- Claim C2 (code_bug evidence): in `twoPeakMag` the indices 6 and 8 are
local maxima above the height threshold with prominence at least 2, they lie
2 < 3 = `distancia` indices apart, and the peak at 8 is the taller — yet
`achar_ressonancias` reports exactly the SHORTER peak (amplitude 16), because
the code passes `distancia` to `find_peaks` as the minimal peak WIDTH (the
taller peak is only 3/2 samples wide), not as a minimal peak separation. -/
theorem C2_distancia_is_width :
    localMaxima twoPeakMag = [6, 8] ∧
    altura twoPeakMag 0 ≤ xval twoPeakMag 6 ∧
    altura twoPeakMag 0 ≤ xval twoPeakMag 8 ∧
    (2 : ℚ) ≤ (promData twoPeakMag 6).1 ∧
    (2 : ℚ) ≤ (promData twoPeakMag 8).1 ∧
    ((8 : Nat) - 6 < 3) ∧
    xval twoPeakMag 6 < xval twoPeakMag 8 ∧
    achar_ressonancias (twoPeakMag, twoPeakFreq) 0 3 2 = .ok ([16], [6]) := by
  refine ⟨lm_twoPeak, ?_, ?_, ?_, ?_, by norm_num, ?_, achar_twoPeak⟩
  · rw [alt_twoPeak, xv_twoPeak6]; norm_num
  · rw [alt_twoPeak, xv_twoPeak8]; norm_num
  · rw [prom_twoPeak6]; norm_num
  · rw [prom_twoPeak8]; norm_num
  · rw [xv_twoPeak6, xv_twoPeak8]; norm_num

/-- Claim C3, counterexample: `atuador` parses the SECOND character of the
second underscore-token, not the first.  On the convention-conforming name
`Viga_d2v1_1.feather` the code returns 2 while the first character `d` is
not a digit at all; on `x_12_y.feather` the code returns 2 while the
spec-described extraction returns 1. -/
theorem C3_first_char_refuted :
    atuador "Viga_d2v1_1.feather" = .ok 2 ∧
    atuadorSpecFirstChar "Viga_d2v1_1.feather" =
      .error (.pathError "Viga_d2v1_1.feather") ∧
    atuador "x_12_y.feather" = .ok 2 ∧
    atuadorSpecFirstChar "x_12_y.feather" = .ok 1 :=
  ⟨by decide, by decide, by decide, by decide⟩

/-- Claim C3 (amended): for every path whose file name has a second
underscore-delimited token with a second character that is a decimal digit,
`atuador` returns that digit's value. -/
theorem C3_atuador_second_char (path : String) (tok : List Char) (c : Char)
    (htok : (pySplit '_' (pyBasename path.data)).get? 1 = some tok)
    (hc : tok.get? 1 = some c) (hd : c.isDigit = true) :
    atuador path = .ok (c.toNat - 48) := by
  simp only [atuador]
  rw [htok]
  dsimp only
  rw [hc]
  dsimp only
  simp [pyDigit, hd]

/-- Claim C3, witness for the amended statement at a concrete path. -/
theorem C3_atuador_second_char_witness :
    (pySplit '_' (pyBasename "Viga_d2v1_1.feather".data)).get? 1 = some "d2v1".data ∧
    "d2v1".data.get? 1 = some '2' ∧ '2'.isDigit = true ∧
    atuador "Viga_d2v1_1.feather" = .ok ('2'.toNat - 48) :=
  ⟨by decide, by decide, by decide,
    C3_atuador_second_char "Viga_d2v1_1.feather" "d2v1".data '2'
      (by decide) (by decide) (by decide)⟩

/-- Claim C4, counterexample: with a malformed path in the middle of the
batch, the organizer returns the `PathError` itself — the later well-formed
path `Viga 2/c.feather` (wear level 2) is not grouped and no result is
returned along with any (sample, error) pairs. -/
theorem C4_batch_aborted :
    desgaste "Viga 2/c.feather" = .ok 2 ∧
    agrupar_por_desgaste ["Viga 1/a.feather", "bad", "Viga 2/c.feather"] 9 =
      .error (.pathError "bad") :=
  ⟨by decide, by decide⟩

/-- Claim C4 (amended): the organizer has no per-sample error isolation: the
first path that fails wear-level parsing makes the whole batch call return
that error, regardless of how many well-formed paths precede or follow it. -/
theorem C4_first_error_aborts_batch (pre : List String) (bad : String)
    (post : List String) (niveis : Nat) (e : PyErr)
    (hpre : ∀ p ∈ pre, ∃ d, desgaste p = .ok d ∧ d < niveis)
    (hbad : desgaste bad = .error e) :
    agrupar_por_desgaste (pre ++ bad :: post) niveis = .error e := by
  rw [agrupar_por_desgaste, agruparGo_append]
  obtain ⟨res, hrun, -, -⟩ :=
    agruparGo_ok pre (List.replicate niveis [none]) (fun _ => [])
      (by simpa using hpre)
      (by
        intro d hd
        rw [List.getD_eq_getElem?_getD, List.getElem?_eq_getElem (by simpa using hd),
          Option.getD_some, List.getElem_replicate]
        rfl)
  rw [hrun]
  dsimp only
  rw [agruparGo, hbad]

/-- Claim C4, witness for the amended statement at a concrete batch. -/
theorem C4_first_error_aborts_batch_witness :
    agrupar_por_desgaste (["Viga 1/a.feather"] ++ "bad" :: ["Viga 2/c.feather"]) 9 =
      .error (.pathError "bad") :=
  C4_first_error_aborts_batch ["Viga 1/a.feather"] "bad" ["Viga 2/c.feather"] 9
    (.pathError "bad")
    (by
      intro p hp
      simp only [List.mem_singleton] at hp
      subst hp
      exact ⟨1, by decide, by decide⟩)
    (by decide)

/-- Claim C5 (code_bug evidence): on a flat (constant) magnitude spectrum no
index qualifies as a peak, so `np.array([])` is one-dimensional and the
`np.split(np_data, 2, 1)` step of `achar_ressonancias` raises an axis error
instead of returning an empty list — for every length, constant value,
frequency row and parameter setting. -/
theorem C5_flat_spectrum_raises (n : Nat) (c : ℚ) (freq : List ℚ)
    (r wmin pmin : ℚ) :
    achar_ressonancias (List.replicate n c, freq) r wmin pmin = .error .axisError := by
  have hlm : localMaxima (List.replicate n c) = [] := by
    rw [localMaxima]; exact lmGo_replicate n c _ 1
  apply achar_eq_of_findPeaks_nil
  rw [findPeaks, hlm]
  rfl

/-- Claim C6, counterexample: a wear level with no samples is represented by
the sentinel list `[None]`, which is not the empty collection the claim
describes. -/
theorem C6_empty_level_is_sentinel :
    agrupar_por_desgaste ["Viga 2/a.feather"] 4 =
      .ok [[none], [none], [some "Viga 2/a.feather"], [none]] ∧
    ([none] : List (Option String)) ≠ [] :=
  ⟨by decide, by decide⟩

/-- Claim C6 (amended): for well-formed batches the organizer succeeds, the
result has one entry per wear level, and the entry of level `d` holds
exactly the input paths of wear level `d` in input order — represented as
`entryRepr`: the sentinel `[None]` when the level has no samples, otherwise
the paths themselves. -/
theorem C6_agrupar_groups_by_wear (paths : List String) (niveis : Nat)
    (hp : ∀ p ∈ paths, ∃ d, desgaste p = .ok d ∧ d < niveis) :
    ∃ res, agrupar_por_desgaste paths niveis = .ok res ∧ res.length = niveis ∧
      ∀ d, d < niveis → res.getD d [] =
        entryRepr (paths.filter (fun p => decide (desgaste p = .ok d))) := by
  obtain ⟨res, hrun, hlen, hres⟩ :=
    agruparGo_ok paths (List.replicate niveis [none]) (fun _ => [])
      (by simpa using hp)
      (by
        intro d hd
        rw [List.getD_eq_getElem?_getD, List.getElem?_eq_getElem (by simpa using hd),
          Option.getD_some, List.getElem_replicate]
        rfl)
  refine ⟨res, hrun, by simpa using hlen, ?_⟩
  intro d hd
  simpa using hres d (by simpa using hd)

/-- Claim C6, witness for the amended statement at a concrete batch with
wear levels 1, 1 and 3. -/
theorem C6_agrupar_groups_by_wear_witness :
    ∃ res,
      agrupar_por_desgaste
          ["Viga 1/a.feather", "Viga 1/b.feather", "Viga 3/c.feather"] 4 = .ok res ∧
      res.length = 4 ∧
      ∀ d, d < 4 → res.getD d [] =
        entryRepr ((["Viga 1/a.feather", "Viga 1/b.feather", "Viga 3/c.feather"]).filter
          (fun p => decide (desgaste p = .ok d))) :=
  C6_agrupar_groups_by_wear _ 4 (by
    intro p hp
    simp at hp
    rcases hp with rfl | rfl | rfl
    · exact ⟨1, by decide, by decide⟩
    · exact ⟨1, by decide, by decide⟩
    · exact ⟨3, by decide, by decide⟩)

/-- Claim C7, counterexample: at `altura_rel = -1/2` the code's threshold is
`mean + |mean * altura_rel|` = 9, not the claimed `mean + |mean| * altura_rel`
= 3; and the returned resonance amplitude 9 equals the threshold, so it does
not EXCEED it (the scipy height selection is non-strict). -/
theorem C7_threshold_formula_refuted :
    altura eqPeakMag (-(1 / 2)) ≠ pyMean eqPeakMag + |pyMean eqPeakMag| * (-(1 / 2)) ∧
    achar_ressonancias (eqPeakMag, eqPeakFreq) (-(1 / 2)) 0 0 = .ok ([9], [20]) ∧
    ¬ altura eqPeakMag (-(1 / 2)) < 9 := by
  refine ⟨?_, achar_eqPeak_neg, ?_⟩
  · rw [alt_eqPeak_neg, pyMean]
    norm_num [eqPeakMag, abs_of_nonneg]
  · rw [alt_eqPeak_neg]
    norm_num

/-- Claim C7 (amended): for every spectrum and every NON-NEGATIVE
height_ratio the threshold `mean + |mean * height_ratio|` coincides with
`mean + |mean| * height_ratio`, and every returned resonance amplitude is
greater than or EQUAL to the threshold. -/
theorem C7_threshold_and_heights (mag freq : List ℚ) (r wmin pmin : ℚ)
    (amps ress : List ℚ) (hr : 0 ≤ r)
    (hok : achar_ressonancias (mag, freq) r wmin pmin = .ok (amps, ress)) :
    altura mag r = pyMean mag + |pyMean mag| * r ∧
    ∀ a ∈ amps, altura mag r ≤ a := by
  refine ⟨by rw [altura, abs_mul, abs_of_nonneg hr], ?_⟩
  intro a ha
  cases hpk : findPeaks mag (altura mag r) wmin pmin with
  | nil =>
    rw [achar_eq_of_findPeaks_nil hpk] at hok
    exact Except.noConfusion hok
  | cons pk pks =>
    rw [achar_eq_of_findPeaks_cons hpk] at hok
    simp only [Except.ok.injEq, Prod.mk.injEq] at hok
    obtain ⟨hamps, -⟩ := hok
    rw [← hamps] at ha
    obtain ⟨i, hi, rfl⟩ := List.mem_map.mp ha
    rw [← hpk] at hi
    exact height_le_of_mem_findPeaks hi

/-- Claim C7, witness for the amended statement at a concrete spectrum. -/
theorem C7_threshold_and_heights_witness :
    (0 : ℚ) ≤ 0 ∧
    achar_ressonancias (eqPeakMag, eqPeakFreq) 0 0 0 = .ok ([9], [20]) ∧
    (altura eqPeakMag 0 = pyMean eqPeakMag + |pyMean eqPeakMag| * 0 ∧
      ∀ a ∈ ([9] : List ℚ), altura eqPeakMag 0 ≤ a) :=
  ⟨le_refl 0, achar_eqPeak_zero,
    C7_threshold_and_heights eqPeakMag eqPeakFreq 0 0 0 [9] [20] (le_refl 0)
      achar_eqPeak_zero⟩

/-- Claim C8, counterexample: for a path whose directory part contains no
`Viga` at all, `desgaste` does not raise — `rfind` returns `-1`, the slice
degenerates to the last character of the directory, and its digit is
returned as a wear level. -/
theorem C8_no_viga_still_returns :
    pyRfind "Viga".data (pyDirname "data3/x.feather".data) = -1 ∧
    desgaste "data3/x.feather" = .ok 3 :=
  ⟨by decide, by decide⟩

/-- Claim C8 (amended): `desgaste` raises `PathError` for a directory part
not containing `Viga` only when that directory part does not end in a
decimal digit (in particular when it is empty). -/
theorem C8_desgaste_no_viga_no_digit (path : String)
    (hviga : pyRfind "Viga".data (pyDirname path.data) = -1)
    (hlast : ((pyDirname path.data).getLast?.all fun c => !c.isDigit) = true) :
    desgaste path = .error (.pathError path) := by
  simp only [desgaste]
  rw [hviga, pySliceFrom_neg_one]
  have hfind : ¬ pyFind "Intacta".data
      ((pyDirname path.data).drop ((pyDirname path.data).length - 1)) > 0 := by
    rw [pyFind_of_short]
    · norm_num
    · rw [List.length_drop]
      have h7 : ("Intacta".data).length = 7 := by decide
      omega
  rw [if_neg hfind, getLast?_drop_sub_one]
  cases hgl : (pyDirname path.data).getLast? with
  | none => rfl
  | some c =>
    rw [hgl, Option.all_some] at hlast
    dsimp only
    rw [pyDigit, if_neg (by simp_all)]

/-- Claim C8, witness for the amended statement at a concrete path. -/
theorem C8_desgaste_no_viga_no_digit_witness :
    pyRfind "Viga".data (pyDirname "abc/x.feather".data) = -1 ∧
    ((pyDirname "abc/x.feather".data).getLast?.all fun c => !c.isDigit) = true ∧
    desgaste "abc/x.feather" = .error (.pathError "abc/x.feather") :=
  ⟨by decide, by decide,
    C8_desgaste_no_viga_no_digit "abc/x.feather" (by decide) (by decide)⟩

/-- Claim C9 (confirmed): for every FIR computation `R` and spectral
transform `F`, `generate_fir_freq` on a configured handler terminates within
two rounds of the retry loop; on an unconfigured fresh handler (no `fir`
attribute) it diverges — no amount of fuel makes it return, because the
silent no-op `generate_fir` never creates `fir` and the `AttributeError`
recurs on every retry. -/
theorem C9_generate_fir_freq_termination (R : List ℚ → List ℚ → List ℚ)
    (F : List ℚ → ℚ → List ℚ × List ℚ) (h : DataHolder) :
    (h.is_config = true → ∀ fuel, 2 ≤ fuel →
      (generate_fir_freq R F fuel h).isSome = true) ∧
    (h.is_config = false → h.fir = none → ∀ fuel,
      generate_fir_freq R F fuel h = none) := by
  constructor
  · intro hc fuel hfuel
    obtain ⟨k, rfl⟩ : ∃ k, fuel = k + 2 := ⟨fuel - 2, by omega⟩
    show (generate_fir_freq R F (k + 1 + 1) h).isSome = true
    rw [generate_fir_freq]
    cases hf : h.fir with
    | some w => rfl
    | none =>
      dsimp only
      rw [generate_fir, if_pos hc]
      rfl
  · intro hc hf fuel
    induction fuel with
    | zero => rfl
    | succ f ih =>
      rw [generate_fir_freq, hf]
      dsimp only
      rw [generate_fir, if_neg (by simp [hc])]
      exact ih

/-- Claim C9, witness: a configured fresh handler terminates with fuel 2; an
unconfigured fresh handler returns nothing even with fuel 5. -/
theorem C9_generate_fir_freq_termination_witness :
    (generate_fir_freq idRun idFourier 2 confHolder).isSome = true ∧
    generate_fir_freq idRun idFourier 5 unconfHolder = none :=
  ⟨(C9_generate_fir_freq_termination idRun idFourier confHolder).1 rfl 2 (by decide),
    (C9_generate_fir_freq_termination idRun idFourier unconfHolder).2 rfl rfl 5⟩

/-- Claim C10 (confirmed): `set_config` overwrites exactly the fields whose
argument is not `None`, leaves every other field (including the computed
artifacts) unchanged, and once a handler is configured no sequence of
`set_config` calls can unconfigure it. -/
theorem C10_set_config_frame (h : DataHolder) (dac imu : Option String) :
    (set_config h dac imu).dac = dac.or h.dac ∧
    (set_config h dac imu).imu = imu.or h.imu ∧
    (set_config h dac imu).fir = h.fir ∧
    (set_config h dac imu).fir_freq = h.fir_freq ∧
    (set_config h dac imu).name = h.name ∧
    (set_config h dac imu).data = h.data ∧
    (h.is_config = true → ∀ calls : List (Option String × Option String),
      (calls.foldl (fun s c => set_config s c.1 c.2) h).is_config = true) := by
  refine ⟨?_, ?_, ?_, ?_, ?_, ?_, fun hc calls => is_config_foldl calls h hc⟩ <;>
    cases dac <;> cases imu <;> simp [set_config, Option.or]

/-- Claim C10, witness: a concrete configured handler stays configured under
a concrete sequence of `set_config` calls. -/
theorem C10_set_config_frame_witness :
    confHolder.is_config = true ∧
    (([((some "dac2" : Option String), (none : Option String)),
        (none, some "imu1accz")]).foldl
      (fun s c => set_config s c.1 c.2) confHolder).is_config = true :=
  ⟨rfl,
    (C10_set_config_frame confHolder (some "dac2") none).2.2.2.2.2.2 rfl
      [((some "dac2" : Option String), (none : Option String)), (none, some "imu1accz")]⟩

end DesgasteViga
